import Mathlib

/-!
Verification of `pkg/monitoring/metrics/virt-controller/metrics.go` from the
KubeVirt virt-controller metrics package.

Modelling choices:
* A `metav1.Time` is embedded as an integer count of nanoseconds since the
  epoch (`Time := Int`); `time.Time.Sub` is exact integer subtraction and
  `time.Duration.Seconds` is exact division by 10^9 in `ℚ`, mirroring the
  real-valued semantics of the Go float64 computation.
* Go's `(float64, error)` return of `getTransitionTimeSeconds` is embedded as
  a pair `ℚ × Option TransitionError`; `none` in the second component is the
  `nil` error.
* Informers, stores, the cluster config and the client are opaque handles the
  code only stores and forwards, so they are embedded as single-field
  structures with decidable equality.
* The package-level mutable variables are gathered into a `PackageState`
  record; `SetupMetrics` and `UpdateVMIMigrationInformer` become explicit
  state transformers.
* The external registration collaborators (`client.SetupMetrics`,
  `workqueue.SetupMetrics`, `operatormetrics.RegisterMetrics`,
  `operatormetrics.RegisterCollector`) are embedded as a `Registry`
  environment giving each call's outcome; `SetupMetrics` additionally returns
  the ordered trace of registration calls it actually performed.
-/

namespace time

/-- Go `time.Second` as a `time.Duration` (nanoseconds). -/
def Second : Int := 1000000000

/-- Go `time.Minute` as a `time.Duration` (nanoseconds). -/
def Minute : Int := 60 * Second

/-- Go `time.Hour` as a `time.Duration` (nanoseconds). -/
def Hour : Int := 60 * Minute

/-- Go `time.Duration.Seconds`: the duration as (exact) seconds. -/
def Seconds (d : Int) : ℚ := (d : ℚ) / 1000000000

end time

/-- A present `metav1.Time`, as nanoseconds since the epoch. A `*metav1.Time`
pointer is `Option Time`, with `none` for `nil`. -/
abbrev Time := Int

/-- Error values produced by `getTransitionTimeSeconds`. The Go code builds the
error with `fmt.Errorf("missing phase transition timestamp, newTime: %v,
oldTime: %v", newTime, oldTime)`, so the error carries both input values. -/
inductive TransitionError where
  | missingTimestamp (newTime oldTime : Option Time)
deriving DecidableEq

/-- Embedding of `getTransitionTimeSeconds(oldTime, newTime *metav1.Time)
(float64, error)`: if either pointer is nil, return `(0.0, err)`; otherwise
compute `newTime.Time.Sub(oldTime.Time).Seconds()` and floor negative results
to `0.0`. -/
def getTransitionTimeSeconds (oldTime newTime : Option Time) :
    ℚ × Option TransitionError :=
  match newTime, oldTime with
  | some n, some o =>
    let diffSeconds := time.Seconds (n - o)
    if diffSeconds < 0 then (0, none) else (diffSeconds, none)
  | n, o => (0, some (TransitionError.missingTimestamp n o))

/-- Embedding of `PhaseTransitionTimeBuckets() []float64`, with each entry the
same unit-conversion product as in the source. The `Unit` argument mirrors the
nullary Go call. -/
def PhaseTransitionTimeBuckets (_ : Unit) : List ℚ :=
  [ 0.5 * time.Seconds time.Second,
    1 * time.Seconds time.Second,
    2 * time.Seconds time.Second,
    5 * time.Seconds time.Second,
    10 * time.Seconds time.Second,
    20 * time.Seconds time.Second,
    30 * time.Seconds time.Second,
    40 * time.Seconds time.Second,
    50 * time.Seconds time.Second,
    60 * time.Seconds time.Second,
    90 * time.Seconds time.Second,
    2 * time.Seconds time.Minute,
    3 * time.Seconds time.Minute,
    5 * time.Seconds time.Minute,
    10 * time.Seconds time.Minute,
    20 * time.Seconds time.Minute,
    30 * time.Seconds time.Minute,
    1 * time.Seconds time.Hour ]

/-- Opaque handle for `cache.SharedIndexInformer`. -/
structure SharedIndexInformer where
  id : Nat
deriving DecidableEq

/-- Opaque handle for `cache.Store`. -/
structure Store where
  id : Nat
deriving DecidableEq

/-- Opaque handle for `*virtconfig.ClusterConfig`. -/
structure ClusterConfig where
  id : Nat
deriving DecidableEq

/-- Opaque handle for `kubecli.KubevirtClient`. -/
structure KubevirtClient where
  id : Nat
deriving DecidableEq

/-- The `Informers` argument struct. -/
structure Informers where
  Vm : SharedIndexInformer
  Vmi : SharedIndexInformer
  PersistentVolumeClaim : SharedIndexInformer
  VmiMigration : SharedIndexInformer
  KvPod : SharedIndexInformer
deriving DecidableEq

/-- The `Stores` argument struct. -/
structure Stores where
  Instancetype : Store
  ClusterInstancetype : Store
  Preference : Store
  ClusterPreference : Store
  ControllerRevision : Store
deriving DecidableEq

/-- Result of `find.NewSpecFinder(store, clusterStore, revisionStore, client)`:
an opaque record of the references it was built from. -/
structure SpecFinder where
  store : Store
  clusterStore : Store
  revisionStore : Store
  client : KubevirtClient
deriving DecidableEq

/-- Embedding of `find.NewSpecFinder`. -/
def NewSpecFinder (store clusterStore revisionStore : Store)
    (client : KubevirtClient) : SpecFinder :=
  ⟨store, clusterStore, revisionStore, client⟩

/-- Result of `preferenceFind.NewSpecFinder`. -/
structure PreferenceSpecFinder where
  store : Store
  clusterStore : Store
  revisionStore : Store
  client : KubevirtClient
deriving DecidableEq

/-- Embedding of `preferenceFind.NewSpecFinder`. -/
def NewPreferenceSpecFinder (store clusterStore revisionStore : Store)
    (client : KubevirtClient) : PreferenceSpecFinder :=
  ⟨store, clusterStore, revisionStore, client⟩

/-- Result of `apply.NewVMApplier(specFinder, preferenceFinder)`: the
`vmApplyHandler` stored in the package-level `vmApplier` variable. -/
structure VMApplier where
  specFinder : SpecFinder
  preferenceFinder : PreferenceSpecFinder
deriving DecidableEq

/-- Embedding of `apply.NewVMApplier`. -/
def NewVMApplier (specFinder : SpecFinder)
    (preferenceFinder : PreferenceSpecFinder) : VMApplier :=
  ⟨specFinder, preferenceFinder⟩

/-- The package-level mutable variables of the file. Go interface and pointer
variables start out nil, hence the `Option` wrappers. -/
structure PackageState where
  vmInformer : Option SharedIndexInformer
  vmiInformer : Option SharedIndexInformer
  persistentVolumeClaimInformer : Option SharedIndexInformer
  vmiMigrationInformer : Option SharedIndexInformer
  kvPodInformer : Option SharedIndexInformer
  clusterConfig : Option ClusterConfig
  vmApplier : Option VMApplier
  instancetypeStore : Option Store
  clusterInstancetypeStore : Option Store
  preferenceStore : Option Store
  clusterPreferenceStore : Option Store
  controllerRevision : Option Store
deriving DecidableEq

/-- Registration errors coming back from the external metrics registry. -/
abbrev RegError := String

/-- The four registration calls `SetupMetrics` makes, in source order:
`client.SetupMetrics()`, `workqueue.SetupMetrics()`,
`operatormetrics.RegisterMetrics(metrics...)`,
`operatormetrics.RegisterCollector(...)`. -/
inductive RegStep where
  | clientSetup
  | workqueueSetup
  | registerMetrics
  | registerCollector
deriving DecidableEq, Fintype

/-- Source-order position of a registration call. -/
def RegStep.idx : RegStep → Nat
  | .clientSetup => 0
  | .workqueueSetup => 1
  | .registerMetrics => 2
  | .registerCollector => 3

/-- Environment modelling the external registry: the outcome each of the four
registration calls would report (`none` is a nil error). -/
structure Registry where
  clientSetup : Option RegError
  workqueueSetup : Option RegError
  registerMetrics : Option RegError
  registerCollector : Option RegError
deriving DecidableEq

/-- Outcome the registry reports for a given call. -/
def Registry.result (reg : Registry) : RegStep → Option RegError
  | .clientSetup => reg.clientSetup
  | .workqueueSetup => reg.workqueueSetup
  | .registerMetrics => reg.registerMetrics
  | .registerCollector => reg.registerCollector

/-- The registration calls up to and including step `k`, in source order. -/
def stepsThrough (k : RegStep) : List RegStep :=
  [RegStep.clientSetup, RegStep.workqueueSetup, RegStep.registerMetrics,
   RegStep.registerCollector].filter (fun s => s.idx ≤ k.idx)

/-- Embedding of `SetupMetrics`. It first assigns every package-level
variable from its arguments and constructs the `vmApplier`, then performs the
four registration calls in order, returning on the first error. The returned
triple is the final package state, the ordered trace of registration calls
performed, and the returned error (`none` for nil). -/
def SetupMetrics (informers : Informers) (stores : Stores)
    (virtClusterConfig : ClusterConfig) (clientset : KubevirtClient)
    (reg : Registry) (st : PackageState) :
    PackageState × List RegStep × Option RegError :=
  let st1 : PackageState :=
    { st with
      vmInformer := some informers.Vm
      vmiInformer := some informers.Vmi
      persistentVolumeClaimInformer := some informers.PersistentVolumeClaim
      vmiMigrationInformer := some informers.VmiMigration
      kvPodInformer := some informers.KvPod
      clusterConfig := some virtClusterConfig
      instancetypeStore := some stores.Instancetype
      clusterInstancetypeStore := some stores.ClusterInstancetype
      preferenceStore := some stores.Preference
      clusterPreferenceStore := some stores.ClusterPreference
      controllerRevision := some stores.ControllerRevision }
  let st2 : PackageState :=
    { st1 with
      vmApplier := some (NewVMApplier
        (NewSpecFinder stores.Instancetype stores.ClusterInstancetype
          stores.ControllerRevision clientset)
        (NewPreferenceSpecFinder stores.Preference stores.ClusterPreference
          stores.ControllerRevision clientset)) }
  match reg.clientSetup with
  | some err => (st2, [RegStep.clientSetup], some err)
  | none =>
    match reg.workqueueSetup with
    | some err => (st2, [RegStep.clientSetup, RegStep.workqueueSetup], some err)
    | none =>
      match reg.registerMetrics with
      | some err =>
        (st2, [RegStep.clientSetup, RegStep.workqueueSetup,
               RegStep.registerMetrics], some err)
      | none =>
        (st2, [RegStep.clientSetup, RegStep.workqueueSetup,
               RegStep.registerMetrics, RegStep.registerCollector],
         reg.registerCollector)

/-- Embedding of `UpdateVMIMigrationInformer`: assigns the package-level
`vmiMigrationInformer` variable. -/
def UpdateVMIMigrationInformer (informer : SharedIndexInformer)
    (st : PackageState) : PackageState :=
  { st with vmiMigrationInformer := some informer }

/-- The package state at process start: every package-level variable holds the
Go zero value (nil). -/
def initialPackageState : PackageState :=
  ⟨none, none, none, none, none, none, none, none, none, none, none, none⟩

/-- C1: for present timestamps with `newTime ≥ oldTime`,
`getTransitionTimeSeconds` succeeds (nil error) and returns exactly the
elapsed seconds `newTime - oldTime`, with no clamping applied. -/
theorem getTransitionTimeSeconds_exact_of_le (o n : Time) (h : o ≤ n) :
    getTransitionTimeSeconds (some o) (some n) =
      (((n - o : Int) : ℚ) / 1000000000, none) := by
  have h0 : (0 : ℚ) ≤ ((n - o : Int) : ℚ) / 1000000000 := by
    apply div_nonneg
    · exact_mod_cast Int.sub_nonneg.mpr h
    · norm_num
  simp only [getTransitionTimeSeconds, time.Seconds]
  rw [if_neg (not_lt.mpr h0)]

/-- Witness for C1: `oldTime = 0`, `newTime = 2.5` seconds later, result is
exactly `2.5` seconds with nil error. -/
theorem getTransitionTimeSeconds_exact_of_le_witness :
    (0 : Time) ≤ 2500000000 ∧
      getTransitionTimeSeconds (some 0) (some 2500000000) =
        (((2500000000 - 0 : Int) : ℚ) / 1000000000, none) :=
  ⟨by decide, getTransitionTimeSeconds_exact_of_le 0 2500000000 (by decide)⟩

/-- C2: for present timestamps with `newTime` earlier than or equal to
`oldTime`, `getTransitionTimeSeconds` succeeds (nil error) and returns
exactly `0`. -/
theorem getTransitionTimeSeconds_zero_of_le (o n : Time) (h : n ≤ o) :
    getTransitionTimeSeconds (some o) (some n) = (0, none) := by
  simp only [getTransitionTimeSeconds, time.Seconds]
  rcases lt_or_eq_of_le h with hlt | heq
  · rw [if_pos]
    apply div_neg_of_neg_of_pos
    · exact_mod_cast sub_neg.mpr hlt
    · norm_num
  · subst heq
    norm_num

/-- Witness for C2: `newTime` one millisecond before `oldTime`, result is
`0` with nil error. -/
theorem getTransitionTimeSeconds_zero_of_le_witness :
    (0 : Time) ≤ 1000000 ∧
      getTransitionTimeSeconds (some 1000000) (some 0) = (0, none) :=
  ⟨by decide, getTransitionTimeSeconds_zero_of_le 1000000 0 (by decide)⟩

/-- C3: `getTransitionTimeSeconds` returns a non-nil error if and only if at
least one input is nil, and in that case the error is the
missing-timestamp error carrying both input values. -/
theorem getTransitionTimeSeconds_error_iff (o n : Option Time) :
    ((getTransitionTimeSeconds o n).2 ≠ none ↔ (o = none ∨ n = none)) ∧
      ((o = none ∨ n = none) →
        (getTransitionTimeSeconds o n).2 =
          some (TransitionError.missingTimestamp n o)) := by
  cases o <;> cases n <;>
    simp only [getTransitionTimeSeconds] <;>
    simp_all <;>
    split <;> simp

/-- Witness for C3: `oldTime` nil, `newTime` present, the error is the
missing-timestamp error naming both inputs. -/
theorem getTransitionTimeSeconds_error_iff_witness :
    (getTransitionTimeSeconds none (some 5)).2 =
      some (TransitionError.missingTimestamp (some 5) none) :=
  (getTransitionTimeSeconds_error_iff none (some 5)).2 (Or.inl rfl)

/-- C6: the numeric component returned by `getTransitionTimeSeconds` is
non-negative for every pair of inputs, nil inputs included. -/
theorem getTransitionTimeSeconds_nonneg (o n : Option Time) :
    0 ≤ (getTransitionTimeSeconds o n).1 := by
  cases o <;> cases n <;> simp only [getTransitionTimeSeconds]
  · simp
  · simp
  · simp
  · split
    · simp
    · simpa using le_of_not_lt (by assumption)

/-- C8: when either input timestamp is nil, the numeric component of the
result is exactly `0`, alongside the error. -/
theorem getTransitionTimeSeconds_zero_on_error (o n : Option Time)
    (h : o = none ∨ n = none) :
    (getTransitionTimeSeconds o n).1 = 0 := by
  cases o <;> cases n <;> simp only [getTransitionTimeSeconds] <;> simp_all

/-- Witness for C8: `oldTime` nil, `newTime` present, numeric component `0`. -/
theorem getTransitionTimeSeconds_zero_on_error_witness :
    (getTransitionTimeSeconds none (some 7)).1 = 0 :=
  getTransitionTimeSeconds_zero_on_error none (some 7) (Or.inl rfl)

/-- C4: `PhaseTransitionTimeBuckets` returns exactly the 18-element strictly
increasing ladder `[0.5, 1, 2, 5, 10, 20, 30, 40, 50, 60, 90, 120, 180, 300,
600, 1200, 1800, 3600]`, with first element `0.5` and last element `3600`;
the unit-conversion products in the source evaluate to these literals. -/
theorem PhaseTransitionTimeBuckets_spec :
    PhaseTransitionTimeBuckets () =
      [0.5, 1, 2, 5, 10, 20, 30, 40, 50, 60, 90, 120, 180, 300, 600, 1200,
       1800, 3600] ∧
    (PhaseTransitionTimeBuckets ()).length = 18 ∧
    List.Chain' (· < ·) (PhaseTransitionTimeBuckets ()) ∧
    (PhaseTransitionTimeBuckets ()).head? = some 0.5 ∧
    (PhaseTransitionTimeBuckets ()).getLast? = some 3600 := by
  refine ⟨?_, ?_, ?_, ?_, ?_⟩ <;>
    norm_num [PhaseTransitionTimeBuckets, time.Seconds, time.Second,
      time.Minute, time.Hour, List.chain'_cons]

/-- C7: `PhaseTransitionTimeBuckets` is deterministic and stable across
calls: any two invocations return element-for-element identical 18-value
sequences. -/
theorem PhaseTransitionTimeBuckets_stable (u v : Unit) :
    PhaseTransitionTimeBuckets u = PhaseTransitionTimeBuckets v ∧
    (PhaseTransitionTimeBuckets u).length = 18 ∧
    (PhaseTransitionTimeBuckets v).length = 18 := by
  cases u
  cases v
  exact ⟨rfl, rfl, rfl⟩

/-- C5: `SetupMetrics` performs the registration calls in a fixed order and
aborts at the first failure: if step `k` fails with error `e` and every
earlier step succeeds, the overall result is exactly `e` and the trace of
registration calls performed stops at `k` (no later group or collector is
registered). -/
theorem SetupMetrics_first_error_wins (informers : Informers) (stores : Stores)
    (cfg : ClusterConfig) (clientset : KubevirtClient) (reg : Registry)
    (st : PackageState) (k : RegStep) (e : RegError)
    (hk : reg.result k = some e)
    (hprev : ∀ j : RegStep, j.idx < k.idx → reg.result j = none) :
    (SetupMetrics informers stores cfg clientset reg st).2.2 = some e ∧
    (SetupMetrics informers stores cfg clientset reg st).2.1 = stepsThrough k := by
  obtain ⟨c, w, m, r⟩ := reg
  cases k with
  | clientSetup =>
    simp only [Registry.result] at hk
    subst hk
    exact ⟨rfl, rfl⟩
  | workqueueSetup =>
    have hc := hprev RegStep.clientSetup (by decide)
    simp only [Registry.result] at hk hc
    subst hk
    subst hc
    exact ⟨rfl, rfl⟩
  | registerMetrics =>
    have hc := hprev RegStep.clientSetup (by decide)
    have hw := hprev RegStep.workqueueSetup (by decide)
    simp only [Registry.result] at hk hc hw
    subst hk
    subst hc
    subst hw
    exact ⟨rfl, rfl⟩
  | registerCollector =>
    have hc := hprev RegStep.clientSetup (by decide)
    have hw := hprev RegStep.workqueueSetup (by decide)
    have hm := hprev RegStep.registerMetrics (by decide)
    simp only [Registry.result] at hk hc hw hm
    subst hk
    subst hc
    subst hw
    subst hm
    exact ⟨rfl, rfl⟩

/-- Witness for C5: a registry that rejects the second registration call
(`workqueue.SetupMetrics`) makes `SetupMetrics` return exactly that error,
with only the first two registration calls performed. -/
theorem SetupMetrics_first_error_wins_witness :
    (SetupMetrics ⟨⟨1⟩, ⟨2⟩, ⟨3⟩, ⟨4⟩, ⟨5⟩⟩ ⟨⟨6⟩, ⟨7⟩, ⟨8⟩, ⟨9⟩, ⟨10⟩⟩
        ⟨11⟩ ⟨12⟩ ⟨none, some "rejected", none, none⟩
        initialPackageState).2.2 = some "rejected" ∧
    (SetupMetrics ⟨⟨1⟩, ⟨2⟩, ⟨3⟩, ⟨4⟩, ⟨5⟩⟩ ⟨⟨6⟩, ⟨7⟩, ⟨8⟩, ⟨9⟩, ⟨10⟩⟩
        ⟨11⟩ ⟨12⟩ ⟨none, some "rejected", none, none⟩
        initialPackageState).2.1 = stepsThrough RegStep.workqueueSetup :=
  SetupMetrics_first_error_wins ⟨⟨1⟩, ⟨2⟩, ⟨3⟩, ⟨4⟩, ⟨5⟩⟩
    ⟨⟨6⟩, ⟨7⟩, ⟨8⟩, ⟨9⟩, ⟨10⟩⟩ ⟨11⟩ ⟨12⟩ ⟨none, some "rejected", none, none⟩
    initialPackageState RegStep.workqueueSetup "rejected" rfl (by decide)

/-- C9: `SetupMetrics` stores every supplied informer, store and
configuration reference into the package-level state and constructs the VM
spec applier before any registration is attempted, so the resulting state
holds all the supplied values no matter what the registry answers (errors do
not roll back the stored state). -/
theorem SetupMetrics_stores_state (informers : Informers) (stores : Stores)
    (cfg : ClusterConfig) (clientset : KubevirtClient) (reg : Registry)
    (st : PackageState) :
    (SetupMetrics informers stores cfg clientset reg st).1 =
      { vmInformer := some informers.Vm
        vmiInformer := some informers.Vmi
        persistentVolumeClaimInformer := some informers.PersistentVolumeClaim
        vmiMigrationInformer := some informers.VmiMigration
        kvPodInformer := some informers.KvPod
        clusterConfig := some cfg
        vmApplier := some (NewVMApplier
          (NewSpecFinder stores.Instancetype stores.ClusterInstancetype
            stores.ControllerRevision clientset)
          (NewPreferenceSpecFinder stores.Preference stores.ClusterPreference
            stores.ControllerRevision clientset))
        instancetypeStore := some stores.Instancetype
        clusterInstancetypeStore := some stores.ClusterInstancetype
        preferenceStore := some stores.Preference
        clusterPreferenceStore := some stores.ClusterPreference
        controllerRevision := some stores.ControllerRevision } := by
  obtain ⟨c, w, m, r⟩ := reg
  cases c
  case some => rfl
  case none =>
    cases w
    case some => rfl
    case none =>
      cases m <;> rfl

/-- C10: `UpdateVMIMigrationInformer` replaces only the package-level
VMI-migration informer reference; every other piece of package-level state is
left unchanged. -/
theorem UpdateVMIMigrationInformer_frame (informer : SharedIndexInformer)
    (st : PackageState) :
    (UpdateVMIMigrationInformer informer st).vmiMigrationInformer =
        some informer ∧
    (UpdateVMIMigrationInformer informer st).vmInformer = st.vmInformer ∧
    (UpdateVMIMigrationInformer informer st).vmiInformer = st.vmiInformer ∧
    (UpdateVMIMigrationInformer informer st).persistentVolumeClaimInformer =
        st.persistentVolumeClaimInformer ∧
    (UpdateVMIMigrationInformer informer st).kvPodInformer = st.kvPodInformer ∧
    (UpdateVMIMigrationInformer informer st).clusterConfig = st.clusterConfig ∧
    (UpdateVMIMigrationInformer informer st).vmApplier = st.vmApplier ∧
    (UpdateVMIMigrationInformer informer st).instancetypeStore =
        st.instancetypeStore ∧
    (UpdateVMIMigrationInformer informer st).clusterInstancetypeStore =
        st.clusterInstancetypeStore ∧
    (UpdateVMIMigrationInformer informer st).preferenceStore =
        st.preferenceStore ∧
    (UpdateVMIMigrationInformer informer st).clusterPreferenceStore =
        st.clusterPreferenceStore ∧
    (UpdateVMIMigrationInformer informer st).controllerRevision =
        st.controllerRevision :=
  ⟨rfl, rfl, rfl, rfl, rfl, rfl, rfl, rfl, rfl, rfl, rfl, rfl⟩
